import Mathlib

/-!
Verification of the daycare budget ledger (`src/main.py`, class `GarderieBudget`).

The Python program keeps all state in one dictionary
`st.session_state.budget_data : dict[str, month-dict]` mapping keys
`f"{year}-{month}"` to a month record `{'revenues': [...], 'expenses': [...],
'notes': str}`.  We embed that dictionary as an association list with
dict-style update (replace in place when the key exists, append otherwise),
Python numbers as exact rationals, and each method of `GarderieBudget` as a
function that takes and returns the store explicitly.
-/

namespace Garderie

/-- One revenue or expense record, as built by `add_revenue` / `add_expense`
in `src/main.py` (dates are stored as ISO strings by `date.isoformat()`). -/
structure Entry where
  id : Nat
  category : String
  description : String
  amount : ℚ
  date : String
  deriving DecidableEq, Repr

/-- One month's record: the value stored under a `"{year}-{month}"` key. -/
structure MonthData where
  revenues : List Entry
  expenses : List Entry
  notes : String
  deriving DecidableEq, Repr

/-- The empty month record created lazily by `get_month_data`. -/
def emptyMonth : MonthData := { revenues := [], expenses := [], notes := "" }

/-- The session store `st.session_state.budget_data`: a Python dict embedded
as an association list (keys unique, insertion order preserved). -/
def Store := List (String × MonthData)

instance : DecidableEq Store := by
  unfold Store
  infer_instance

/-- Dict lookup: first binding of the key, if any. -/
def storeGet : Store → String → Option MonthData
  | [], _ => none
  | (k', v) :: rest, k => if k' = k then some v else storeGet rest k

/-- Dict assignment `d[k] = v`: replace the existing binding in place,
or append a new one (Python dicts preserve insertion order). -/
def storeSet : Store → String → MonthData → Store
  | [], k, v => [(k, v)]
  | (k', v') :: rest, k, v =>
      if k' = k then (k, v) :: rest else (k', v') :: storeSet rest k v

/-- Python `self.data_file` as assigned in `GarderieBudget.__init__`
(src/main.py line 38): a fixed file name, the same for every session. -/
def data_file : String := "garderie_budget.json"

/-- Python `self.months` (src/main.py lines 39-42). -/
def months : List String :=
  ["Janvier", "Février", "Mars", "Avril", "Mai", "Juin",
   "Juillet", "Août", "Septembre", "Octobre", "Novembre", "Décembre"]

/-- Python `self.revenue_categories` (src/main.py lines 44-50). -/
def revenue_categories : List String :=
  ["Frais de garde",
   "Subventions gouvernementales",
   "Frais d\u0027inscription",
   "Activités spéciales",
   "Autres revenus"]

/-- Python `self.expense_categories` (src/main.py lines 52-63). -/
def expense_categories : List String :=
  ["Salaires et avantages",
   "Alimentation",
   "Matériel éducatif",
   "Fournitures",
   "Loyer/Hypothèque",
   "Services publics",
   "Assurances",
   "Entretien et réparations",
   "Formation du personnel",
   "Autres dépenses"]

/-- Python `get_month_key(year, month)` (src/main.py line 91): the f-string of the year, a dash, and the month. -/
def get_month_key (year month : Nat) : String :=
  toString year ++ "-" ++ toString month

/-- Python `get_month_data(year, month)` (src/main.py lines 93-102): return the
month record for the key, materializing an empty one in the store first when
the key is absent.  The returned store is the possibly-mutated
`st.session_state.budget_data`. -/
def get_month_data (σ : Store) (year month : Nat) : MonthData × Store :=
  let k := get_month_key year month
  match storeGet σ k with
  | some md => (md, σ)
  | none => (emptyMonth, storeSet σ k emptyMonth)

/-- Which of the two entry lists an operation targets
(`item_type ∈ {'revenues', 'expenses'}` in the Python call sites). -/
inductive ListKind where
  | revenues
  | expenses
  deriving DecidableEq, Repr

/-- Python `add_revenue(year, month, category, description, amount, date)`
(src/main.py lines 104-115): build an entry with
`id = len(month_data['revenues']) + 1` and append it to the month's
revenues list. -/
def add_revenue (σ : Store) (year month : Nat) (category description : String)
    (amount : ℚ) (date_entry : String) : Store :=
  let mdσ := get_month_data σ year month
  let md := mdσ.1
  let revenue : Entry :=
    { id := md.revenues.length + 1, category := category,
      description := description, amount := amount, date := date_entry }
  storeSet mdσ.2 (get_month_key year month)
    { md with revenues := md.revenues ++ [revenue] }

/-- Python `add_expense(year, month, category, description, amount, date)`
(src/main.py lines 117-128): same as `add_revenue` for the expenses list. -/
def add_expense (σ : Store) (year month : Nat) (category description : String)
    (amount : ℚ) (date_entry : String) : Store :=
  let mdσ := get_month_data σ year month
  let md := mdσ.1
  let expense : Entry :=
    { id := md.expenses.length + 1, category := category,
      description := description, amount := amount, date := date_entry }
  storeSet mdσ.2 (get_month_key year month)
    { md with expenses := md.expenses ++ [expense] }

/-- Python `delete_item(year, month, item_type, item_id)` (src/main.py lines
130-134): `month_data[item_type] = [item for item in month_data[item_type]
if item['id'] != item_id]` — the list comprehension keeps every entry whose
id differs from `item_id`, so all matching entries are dropped. -/
def delete_item (σ : Store) (year month : Nat) (item_type : ListKind)
    (item_id : Nat) : Store :=
  let mdσ := get_month_data σ year month
  let md := mdσ.1
  let md' :=
    match item_type with
    | .revenues => { md with revenues := md.revenues.filter (fun e => e.id ≠ item_id) }
    | .expenses => { md with expenses := md.expenses.filter (fun e => e.id ≠ item_id) }
  storeSet mdσ.2 (get_month_key year month) md'

/-- The totals dict returned by `calculate_totals`. -/
structure Totals where
  revenues : ℚ
  expenses : ℚ
  net_income : ℚ
  deriving DecidableEq, Repr

/-- Python `sum(item['amount'] for item in l)`. -/
def total_amount (l : List Entry) : ℚ := (l.map (fun e => e.amount)).sum

/-- Python `calculate_totals(year, month)` (src/main.py lines 136-145): recompute
both list sums and the net from the current entry lists on every call. -/
def calculate_totals (σ : Store) (year month : Nat) : Totals × Store :=
  let mdσ := get_month_data σ year month
  let md := mdσ.1
  ({ revenues := total_amount md.revenues,
     expenses := total_amount md.expenses,
     net_income := total_amount md.revenues - total_amount md.expenses },
   mdσ.2)

/-- The month record currently associated with `(year, month)`: the stored
value when the key is present, or the empty month that `get_month_data`
would materialize. -/
def monthDataAt (σ : Store) (year month : Nat) : MonthData :=
  (storeGet σ (get_month_key year month)).getD emptyMonth

/-- One row of `annual_data['monthly_totals']`. -/
structure MonthlyTotal where
  month : String
  revenues : ℚ
  expenses : ℚ
  net_income : ℚ
  deriving DecidableEq, Repr

/-- The `annual_data` dict built by `generate_annual_report`.  The two
category dicts are embedded as association lists over the fixed category
enumerations. -/
structure AnnualData where
  monthly_totals : List MonthlyTotal
  revenue_categories : List (String × ℚ)
  expense_categories : List (String × ℚ)
  grand_totals : Totals
  deriving DecidableEq, Repr

/-- Python `d[cat] += amt` on a category dict: fails (Python `KeyError`) when the
category is not a key of the dict. -/
def bumpCategory : List (String × ℚ) → String → ℚ → Option (List (String × ℚ))
  | [], _, _ => none
  | (c, v) :: rest, cat, amt =>
      if c = cat then some ((c, v + amt) :: rest)
      else (bumpCategory rest cat amt).map (fun l => (c, v) :: l)

/-- The `for item in month_data[...]` accumulation loop of
`generate_annual_report` over one month's entry list. -/
def bumpAll (acc : List (String × ℚ)) : List Entry → Option (List (String × ℚ))
  | [] => some acc
  | e :: rest =>
      match bumpCategory acc e.category e.amount with
      | none => none
      | some acc' => bumpAll acc' rest

/-- The starting `annual_data` (src/main.py lines 149-154): every fixed
category present with value 0, grand totals all 0. -/
def initialAnnual : AnnualData :=
  { monthly_totals := [],
    revenue_categories := revenue_categories.map (fun c => (c, 0)),
    expense_categories := expense_categories.map (fun c => (c, 0)),
    grand_totals := { revenues := 0, expenses := 0, net_income := 0 } }

/-- One iteration of the `for month in range(12)` loop of
`generate_annual_report` (src/main.py lines 156-176): fetch the month,
recompute its totals, append the monthly row, add the month's revenue and
expense totals to the grand totals (the grand net is NOT touched here), and
accumulate the per-category sums. -/
def annualStep (year : Nat) (ad : AnnualData) (σ : Store) (month : Nat) :
    Option (AnnualData × Store) :=
  let mdσ := get_month_data σ year month
  let md := mdσ.1
  let tσ := calculate_totals mdσ.2 year month
  let t := tσ.1
  match bumpAll ad.revenue_categories md.revenues with
  | none => none
  | some rc =>
      match bumpAll ad.expense_categories md.expenses with
      | none => none
      | some ec =>
          some
            ({ monthly_totals := ad.monthly_totals ++
                 [{ month := months.getD month "", revenues := t.revenues,
                    expenses := t.expenses, net_income := t.net_income }],
               revenue_categories := rc,
               expense_categories := ec,
               grand_totals :=
                 { revenues := ad.grand_totals.revenues + t.revenues,
                   expenses := ad.grand_totals.expenses + t.expenses,
                   net_income := ad.grand_totals.net_income } },
             tσ.2)

/-- The whole `for month in range(12)` loop, threading `annual_data` and the
session store through the iterations. -/
def annualLoop (year : Nat) : List Nat → AnnualData → Store →
    Option (AnnualData × Store)
  | [], ad, σ => some (ad, σ)
  | m :: rest, ad, σ =>
      match annualStep year ad σ m with
      | none => none
      | some (ad', σ') => annualLoop year rest ad' σ'

/-- Python `generate_annual_report(year)` (src/main.py lines 147-181): run the
monthly fold, then set the grand net once, after the fold, as
`grand_revenues - grand_expenses` (lines 178-180). -/
def generate_annual_report (σ : Store) (year : Nat) :
    Option (AnnualData × Store) :=
  match annualLoop year (List.range 12) initialAnnual σ with
  | none => none
  | some (ad, σ') =>
      some
        ({ ad with grand_totals :=
            { ad.grand_totals with net_income :=
                ad.grand_totals.revenues - ad.grand_totals.expenses } },
         σ')

/-- The revenue form handler in `main` (src/main.py lines 408-414): on
submit, `if rev_amount > 0` call `add_revenue`, otherwise show the error
"Le montant doit être supérieur à 0" and change nothing.  The result pairs
the message shown (if any) with the resulting session store. -/
def submit_revenue (σ : Store) (year month : Nat) (category description : String)
    (amount : ℚ) (date_entry : String) : Option String × Store :=
  if amount > 0 then
    (none, add_revenue σ year month category description amount date_entry)
  else
    (some "Le montant doit être supérieur à 0", σ)

/-- The expense form handler in `main` (src/main.py lines 451-457):
symmetric to `submit_revenue`. -/
def submit_expense (σ : Store) (year month : Nat) (category description : String)
    (amount : ℚ) (date_entry : String) : Option String × Store :=
  if amount > 0 then
    (none, add_expense σ year month category description amount date_entry)
  else
    (some "Le montant doit être supérieur à 0", σ)

/-- JSON values, as far as the persisted file format uses them: Python's
`json` module distinguishes ints from floats, so both appear. -/
inductive Json where
  | nat : Nat → Json
  | num : ℚ → Json
  | str : String → Json
  | arr : List Json → Json
  | obj : List (String × Json) → Json

/-- How `json.dump` renders one entry dict. -/
def entryToJson (e : Entry) : Json :=
  .obj [("id", .nat e.id), ("category", .str e.category),
        ("description", .str e.description), ("amount", .num e.amount),
        ("date", .str e.date)]

/-- How `json.dump` renders one month dict. -/
def monthToJson (md : MonthData) : Json :=
  .obj [("revenues", .arr (md.revenues.map entryToJson)),
        ("expenses", .arr (md.expenses.map entryToJson)),
        ("notes", .str md.notes)]

/-- Modelled from the spec: `save_data` (src/main.py lines 80-87) writes
`st.session_state.budget_data` through `json.dump`; the file writing and the
`json` module are outside the repository, so serialization is modelled as
producing the JSON tree of the store. -/
def save_data (σ : Store) : Json :=
  .obj (σ.map (fun p => (p.1, monthToJson p.2)))

/-- Inverse of `entryToJson` on well-formed entry objects. -/
def jsonToEntry : Json → Option Entry
  | .obj [("id", .nat i), ("category", .str c), ("description", .str d),
          ("amount", .num a), ("date", .str dt)] =>
      some { id := i, category := c, description := d, amount := a, date := dt }
  | _ => none

/-- Inverse of `entryToJson` on a list of entry objects. -/
def jsonToEntryList : List Json → Option (List Entry)
  | [] => some []
  | j :: rest =>
      match jsonToEntry j, jsonToEntryList rest with
      | some e, some es => some (e :: es)
      | _, _ => none

/-- Inverse of `entryToJson` mapped over an entry array. -/
def jsonToEntries : Json → Option (List Entry)
  | .arr js => jsonToEntryList js
  | _ => none

/-- Inverse of `monthToJson` on well-formed month objects. -/
def jsonToMonth : Json → Option MonthData
  | .obj [("revenues", rj), ("expenses", ej), ("notes", .str n)] =>
      match jsonToEntries rj, jsonToEntries ej with
      | some rs, some es => some { revenues := rs, expenses := es, notes := n }
      | _, _ => none
  | _ => none

/-- Inverse of `monthToJson` over the fields of the persisted top-level
object. -/
def load_fields : List (String × Json) → Option (List (String × MonthData))
  | [] => some []
  | p :: rest =>
      match jsonToMonth p.2, load_fields rest with
      | some md, some r => some ((p.1, md) :: r)
      | _, _ => none

/-- Modelled from the spec: `load_data` (src/main.py lines 69-78) reads the
persisted JSON back with `json.load`; parsing is modelled as decoding the
JSON tree back into a store. -/
def load_data : Json → Option Store
  | .obj fields => load_fields fields
  | _ => none

/-- Modelled from the spec: collapse every maximal run of non-alphanumeric
characters into a single underscore.  The boolean records whether the
previous character belonged to such a run. -/
def collapseRuns : Bool → List Char → List Char
  | _, [] => []
  | inRun, c :: rest =>
      if c.isAlphanum then c :: collapseRuns false rest
      else if inRun then collapseRuns true rest
      else '_' :: collapseRuns true rest

/-- Modelled from the spec: "sanitize the user identifier by replacing every
non-alphanumeric run with a single underscore, lower-casing, truncating to
30 characters" (§4.1).  No such derivation exists in `src/main.py`. -/
def sanitizeIdentifier (s : String) : String :=
  String.mk (((collapseRuns false s.data).map Char.toLower).take 30)

/-- Modelled from the spec: "removes the first (and expected-only) entry
with matching id" — removal of only the FIRST match, for comparison with
`delete_item`. -/
def removeFirstById : List Entry → Nat → List Entry
  | [], _ => []
  | e :: rest, i => if e.id = i then rest else e :: removeFirstById rest i

/-- The store after one `get_month_data` call: unchanged if the key exists,
otherwise extended with an empty month. -/
def matStep (σ : Store) (y m : Nat) : Store := (get_month_data σ y m).2

/-- The store after materializing a list of months in loop order. -/
def matFold (σ : Store) (y : Nat) : List Nat → Store
  | [] => σ
  | m :: rest => matFold (matStep σ y m) y rest

/-- Sum of the amounts of the entries of one category. -/
def catSum (es : List Entry) (cat : String) : ℚ :=
  ((es.filter (fun e => e.category = cat)).map (fun e => e.amount)).sum

/-- Lookup in an association-list dict of per-category sums. -/
def lookupQ (l : List (String × ℚ)) (cat : String) : Option ℚ :=
  (l.find? (fun p => p.1 = cat)).map (fun p => p.2)

/-- The `monthly_totals` row the loop appends for month `m` when the store
reads as `σ`. -/
def monthRow (σ : Store) (y m : Nat) : MonthlyTotal :=
  { month := months.getD m "",
    revenues := total_amount (monthDataAt σ y m).revenues,
    expenses := total_amount (monthDataAt σ y m).expenses,
    net_income := total_amount (monthDataAt σ y m).revenues -
      total_amount (monthDataAt σ y m).expenses }

/-- The month reached by: add three revenues, delete id 2, add a fourth.
By `add_id_reuse` its revenues carry the ids `[1, 3, 3]`. -/
def dupStore : Store :=
  add_revenue (delete_item (add_revenue (add_revenue (add_revenue ([] : Store)
    2025 6 "Frais de garde" "a" 5 "2025-07-01")
    2025 6 "Frais de garde" "b" 6 "2025-07-02")
    2025 6 "Frais de garde" "c" 7 "2025-07-03")
    2025 6 ListKind.revenues 2)
    2025 6 "Frais de garde" "d" 8 "2025-07-04"

/-- A one-entry store (1200 of "Frais de garde" in July 2025) used to
instantiate the annual-report theorems on a concrete input. -/
def annualWitnessStore : Store :=
  add_revenue [] 2025 6 "Frais de garde" "Juillet" 1200 "2025-07-01"

/-! ### Store lemmas -/

theorem storeGet_set_self (σ : Store) (k : String) (v : MonthData) :
    storeGet (storeSet σ k v) k = some v := by
  induction σ with
  | nil => simp [storeSet, storeGet]
  | cons p rest ih =>
      obtain ⟨k', v'⟩ := p
      by_cases h : k' = k
      · simp [storeSet, storeGet, h]
      · simp [storeSet, storeGet, h, ih]

theorem storeGet_set_ne (σ : Store) (k k' : String) (v : MonthData)
    (h : k' ≠ k) : storeGet (storeSet σ k v) k' = storeGet σ k' := by
  induction σ with
  | nil =>
      simp only [storeSet, storeGet]
      rw [if_neg (fun hh => h hh.symm)]
  | cons p rest ih =>
      obtain ⟨k₀, v₀⟩ := p
      by_cases h₀ : k₀ = k
      · subst h₀
        simp [storeSet, storeGet, Ne.symm h]
      · simp [storeSet, storeGet, h₀, ih]

theorem get_month_data_fst (σ : Store) (y m : Nat) :
    (get_month_data σ y m).1 = monthDataAt σ y m := by
  unfold get_month_data monthDataAt
  cases h : storeGet σ (get_month_key y m) <;> simp [h]

theorem get_month_data_snd_get_self (σ : Store) (y m : Nat) :
    storeGet (get_month_data σ y m).2 (get_month_key y m) =
      some (monthDataAt σ y m) := by
  unfold get_month_data monthDataAt
  cases h : storeGet σ (get_month_key y m) with
  | none => simp [h, storeGet_set_self]
  | some md => simp [h]

theorem get_month_data_snd_get_ne (σ : Store) (y m : Nat) (k : String)
    (h : k ≠ get_month_key y m) :
    storeGet (get_month_data σ y m).2 k = storeGet σ k := by
  unfold get_month_data
  cases h' : storeGet σ (get_month_key y m) with
  | none => simp [h', storeGet_set_ne _ _ _ _ h]
  | some md => simp [h']

theorem monthDataAt_get_month_data_snd (σ : Store) (y m : Nat) :
    monthDataAt (get_month_data σ y m).2 y m = monthDataAt σ y m := by
  unfold monthDataAt
  rw [get_month_data_snd_get_self]
  unfold monthDataAt
  rfl

theorem get_month_data_idem (σ : Store) (y m : Nat) :
    get_month_data (get_month_data σ y m).2 y m =
      (monthDataAt σ y m, (get_month_data σ y m).2) := by
  have h := get_month_data_snd_get_self σ y m
  generalize hσ : (get_month_data σ y m).2 = σ₂ at h ⊢
  unfold get_month_data
  simp [h]

/-! ### C1: `calculate_totals` recomputes sums and the net -/

theorem calculate_totals_fst (σ : Store) (y m : Nat) :
    (calculate_totals σ y m).1 =
      { revenues := total_amount (monthDataAt σ y m).revenues,
        expenses := total_amount (monthDataAt σ y m).expenses,
        net_income := total_amount (monthDataAt σ y m).revenues -
          total_amount (monthDataAt σ y m).expenses } := by
  simp [calculate_totals, get_month_data_fst]

theorem calculate_totals_snd (σ : Store) (y m : Nat) :
    (calculate_totals σ y m).2 = (get_month_data σ y m).2 := rfl

/-- C1.  For every year and month, `calculate_totals` returns revenues equal
to the sum of the `amount` fields of that month's revenue entries, expenses
equal to the sum of the `amount` fields of that month's expense entries, and
`net_income` equal to revenues minus expenses, recomputed from the current
entry lists; on a month with no entries all three values are 0. -/
theorem calculate_totals_correct (σ : Store) (y m : Nat) :
    (calculate_totals σ y m).1.revenues =
      ((monthDataAt σ y m).revenues.map (fun e => e.amount)).sum ∧
    (calculate_totals σ y m).1.expenses =
      ((monthDataAt σ y m).expenses.map (fun e => e.amount)).sum ∧
    (calculate_totals σ y m).1.net_income =
      (calculate_totals σ y m).1.revenues - (calculate_totals σ y m).1.expenses ∧
    ((monthDataAt σ y m).revenues = [] → (monthDataAt σ y m).expenses = [] →
      (calculate_totals σ y m).1 =
        { revenues := 0, expenses := 0, net_income := 0 }) := by
  rw [calculate_totals_fst]
  refine ⟨rfl, rfl, rfl, ?_⟩
  intro hr he
  simp [hr, he, total_amount]

/-- Closed instance of `calculate_totals_correct`: its empty-month hypothesis
discharged on the empty store. -/
theorem calculate_totals_correct_witness :
    (calculate_totals [] 2025 6).1 =
      { revenues := 0, expenses := 0, net_income := 0 } := by
  refine (calculate_totals_correct [] 2025 6).2.2.2 ?_ ?_ <;> rfl

/-! ### C4: non-positive amounts are rejected before any mutation -/

/-- C4.  For every add-entry request with `amount ≤ 0`, the form handlers in
`main` reject the request with the validation message and do not touch the
store: the resulting store is the input store itself, hence the target
month's record and its totals are unchanged. -/
theorem submit_nonpositive_rejected (σ : Store) (y m : Nat)
    (c d t : String) (a : ℚ) (ha : a ≤ 0) :
    submit_revenue σ y m c d a t = (some "Le montant doit être supérieur à 0", σ) ∧
    submit_expense σ y m c d a t = (some "Le montant doit être supérieur à 0", σ) ∧
    monthDataAt (submit_revenue σ y m c d a t).2 y m = monthDataAt σ y m ∧
    (calculate_totals (submit_revenue σ y m c d a t).2 y m).1 =
      (calculate_totals σ y m).1 := by
  have hna : ¬ a > 0 := not_lt.mpr ha
  refine ⟨?_, ?_, ?_, ?_⟩ <;> simp [submit_revenue, submit_expense, hna]

/-- Closed instance of `submit_nonpositive_rejected` at amount 0 on the
empty store. -/
theorem submit_nonpositive_rejected_witness :
    submit_revenue [] 2025 6 "Frais de garde" "Juillet" 0 "2025-07-01" =
      (some "Le montant doit être supérieur à 0", []) := by
  exact (submit_nonpositive_rejected [] 2025 6 "Frais de garde" "Juillet"
    "2025-07-01" 0 (le_refl 0)).1

/-! ### Effect of the three mutators on the target month and on other keys -/

theorem add_revenue_get_self (σ : Store) (y m : Nat) (c d t : String) (a : ℚ) :
    storeGet (add_revenue σ y m c d a t) (get_month_key y m) =
      some { monthDataAt σ y m with revenues := (monthDataAt σ y m).revenues ++
        [{ id := (monthDataAt σ y m).revenues.length + 1, category := c,
           description := d, amount := a, date := t }] } := by
  simp only [add_revenue]
  rw [storeGet_set_self, get_month_data_fst]

theorem add_expense_get_self (σ : Store) (y m : Nat) (c d t : String) (a : ℚ) :
    storeGet (add_expense σ y m c d a t) (get_month_key y m) =
      some { monthDataAt σ y m with expenses := (monthDataAt σ y m).expenses ++
        [{ id := (monthDataAt σ y m).expenses.length + 1, category := c,
           description := d, amount := a, date := t }] } := by
  simp only [add_expense]
  rw [storeGet_set_self, get_month_data_fst]

theorem delete_item_get_self_rev (σ : Store) (y m i : Nat) :
    storeGet (delete_item σ y m .revenues i) (get_month_key y m) =
      some { monthDataAt σ y m with revenues :=
        (monthDataAt σ y m).revenues.filter (fun e => e.id ≠ i) } := by
  simp only [delete_item]
  rw [storeGet_set_self, get_month_data_fst]

theorem delete_item_get_self_exp (σ : Store) (y m i : Nat) :
    storeGet (delete_item σ y m .expenses i) (get_month_key y m) =
      some { monthDataAt σ y m with expenses :=
        (monthDataAt σ y m).expenses.filter (fun e => e.id ≠ i) } := by
  simp only [delete_item]
  rw [storeGet_set_self, get_month_data_fst]

theorem add_revenue_monthDataAt (σ : Store) (y m : Nat) (c d t : String) (a : ℚ) :
    monthDataAt (add_revenue σ y m c d a t) y m =
      { monthDataAt σ y m with revenues := (monthDataAt σ y m).revenues ++
        [{ id := (monthDataAt σ y m).revenues.length + 1, category := c,
           description := d, amount := a, date := t }] } := by
  have h := add_revenue_get_self σ y m c d t a
  unfold monthDataAt at h ⊢
  rw [h]
  rfl

theorem add_expense_monthDataAt (σ : Store) (y m : Nat) (c d t : String) (a : ℚ) :
    monthDataAt (add_expense σ y m c d a t) y m =
      { monthDataAt σ y m with expenses := (monthDataAt σ y m).expenses ++
        [{ id := (monthDataAt σ y m).expenses.length + 1, category := c,
           description := d, amount := a, date := t }] } := by
  have h := add_expense_get_self σ y m c d t a
  unfold monthDataAt at h ⊢
  rw [h]
  rfl

theorem delete_item_monthDataAt_rev (σ : Store) (y m i : Nat) :
    monthDataAt (delete_item σ y m .revenues i) y m =
      { monthDataAt σ y m with revenues :=
          (monthDataAt σ y m).revenues.filter (fun e => e.id ≠ i) } := by
  have h := delete_item_get_self_rev σ y m i
  unfold monthDataAt at h ⊢
  rw [h]
  rfl

theorem delete_item_monthDataAt_exp (σ : Store) (y m i : Nat) :
    monthDataAt (delete_item σ y m .expenses i) y m =
      { monthDataAt σ y m with expenses :=
          (monthDataAt σ y m).expenses.filter (fun e => e.id ≠ i) } := by
  have h := delete_item_get_self_exp σ y m i
  unfold monthDataAt at h ⊢
  rw [h]
  rfl

theorem add_revenue_get_ne (σ : Store) (y m : Nat) (c d t : String) (a : ℚ)
    (k : String) (h : k ≠ get_month_key y m) :
    storeGet (add_revenue σ y m c d a t) k = storeGet σ k := by
  simp only [add_revenue]
  rw [storeGet_set_ne _ _ _ _ h, get_month_data_snd_get_ne _ _ _ _ h]

theorem add_expense_get_ne (σ : Store) (y m : Nat) (c d t : String) (a : ℚ)
    (k : String) (h : k ≠ get_month_key y m) :
    storeGet (add_expense σ y m c d a t) k = storeGet σ k := by
  simp only [add_expense]
  rw [storeGet_set_ne _ _ _ _ h, get_month_data_snd_get_ne _ _ _ _ h]

/-! ### C10: `add_revenue` / `add_expense` touch only the target list -/

/-- C10.  For every year, month and entry fields, `add_revenue` changes the
store only at the key of that month: the month's record keeps its expenses
and notes and all prior revenue entries in order, gaining exactly one
appended entry, and every other key reads exactly as before; symmetrically
for `add_expense` and the expenses list. -/
theorem add_entry_frame (σ : Store) (y m : Nat) (c d t : String) (a : ℚ) :
    storeGet (add_revenue σ y m c d a t) (get_month_key y m) =
      some { monthDataAt σ y m with revenues := (monthDataAt σ y m).revenues ++
        [{ id := (monthDataAt σ y m).revenues.length + 1, category := c,
           description := d, amount := a, date := t }] } ∧
    storeGet (add_expense σ y m c d a t) (get_month_key y m) =
      some { monthDataAt σ y m with expenses := (monthDataAt σ y m).expenses ++
        [{ id := (monthDataAt σ y m).expenses.length + 1, category := c,
           description := d, amount := a, date := t }] } ∧
    (∀ k, k ≠ get_month_key y m →
      storeGet (add_revenue σ y m c d a t) k = storeGet σ k ∧
      storeGet (add_expense σ y m c d a t) k = storeGet σ k) := by
  exact ⟨add_revenue_get_self σ y m c d t a, add_expense_get_self σ y m c d t a,
    fun k hk => ⟨add_revenue_get_ne σ y m c d t a k hk,
      add_expense_get_ne σ y m c d t a k hk⟩⟩

/-- Closed instance of `add_entry_frame`: a key of a different year is
untouched by an `add_revenue` call. -/
theorem add_entry_frame_witness :
    storeGet (add_revenue [] 2025 6 "Frais de garde" "Juillet" 1200 "2025-07-01")
      "2024-6" = storeGet [] "2024-6" := by
  exact ((add_entry_frame [] 2025 6 "Frais de garde" "Juillet" "2025-07-01"
    1200).2.2 "2024-6" (by decide)).1

/-! ### C2: `id = len(list) + 1`, and id reuse after a deletion -/

/-- C2.  Adding an entry assigns it `id = (length of the target list) + 1`;
consequently, on a month whose revenues list starts empty, adding three
entries, deleting the entry with id 2 and adding a fourth leaves the
revenues ids `[1, 3, 3]`: the fourth entry received id 3, duplicating the
id of the entry already in the list. -/
theorem add_id_reuse (σ : Store) (y m : Nat)
    (c₁ d₁ t₁ c₂ d₂ t₂ c₃ d₃ t₃ c₄ d₄ t₄ : String) (a₁ a₂ a₃ a₄ : ℚ)
    (h : (monthDataAt σ y m).revenues = []) :
    (∀ σ₀ c d t (a : ℚ),
      (monthDataAt (add_revenue σ₀ y m c d a t) y m).revenues =
        (monthDataAt σ₀ y m).revenues ++
          [{ id := (monthDataAt σ₀ y m).revenues.length + 1, category := c,
             description := d, amount := a, date := t }]) ∧
    (∀ σ₀ c d t (a : ℚ),
      (monthDataAt (add_expense σ₀ y m c d a t) y m).expenses =
        (monthDataAt σ₀ y m).expenses ++
          [{ id := (monthDataAt σ₀ y m).expenses.length + 1, category := c,
             description := d, amount := a, date := t }]) ∧
    (monthDataAt (add_revenue (delete_item (add_revenue (add_revenue
        (add_revenue σ y m c₁ d₁ a₁ t₁) y m c₂ d₂ a₂ t₂) y m c₃ d₃ a₃ t₃)
        y m ListKind.revenues 2) y m c₄ d₄ a₄ t₄) y m).revenues.map
      (fun e => e.id) = [1, 3, 3] := by
  refine ⟨fun σ₀ c d t a => by rw [add_revenue_monthDataAt],
    fun σ₀ c d t a => by rw [add_expense_monthDataAt], ?_⟩
  simp [add_revenue_monthDataAt, delete_item_monthDataAt_rev, h, List.filter]

/-- Closed instance of `add_id_reuse` on the empty store: the scenario ends
with revenue ids `[1, 3, 3]`. -/
theorem add_id_reuse_witness :
    (monthDataAt (add_revenue (delete_item (add_revenue (add_revenue
        (add_revenue ([] : Store) 2025 6 "Frais de garde" "a" 5 "2025-07-01")
        2025 6 "Frais de garde" "b" 6 "2025-07-02")
        2025 6 "Frais de garde" "c" 7 "2025-07-03")
        2025 6 ListKind.revenues 2)
        2025 6 "Frais de garde" "d" 8 "2025-07-04") 2025 6).revenues.map
      (fun e => e.id) = [1, 3, 3] :=
  (add_id_reuse [] 2025 6 "Frais de garde" "a" "2025-07-01" "Frais de garde"
    "b" "2025-07-02" "Frais de garde" "c" "2025-07-03" "Frais de garde" "d"
    "2025-07-04" 5 6 7 8 rfl).2.2

/-! ### C3: `delete_item` removes ALL matching entries, silently -/

/-- C3 (amended).  For every month, list kind and id, `delete_item` removes
every entry whose id matches (in the expected case of unique ids this is
exactly the first and only match), never fails, and when no entry matches
it is a silent no-op leaving the list unchanged; deleting any id from an
empty list leaves it empty. -/
theorem delete_item_filter_spec (σ : Store) (y m i : Nat) :
    (monthDataAt (delete_item σ y m ListKind.revenues i) y m).revenues =
      (monthDataAt σ y m).revenues.filter (fun e => e.id ≠ i) ∧
    (monthDataAt (delete_item σ y m ListKind.expenses i) y m).expenses =
      (monthDataAt σ y m).expenses.filter (fun e => e.id ≠ i) ∧
    ((∀ e ∈ (monthDataAt σ y m).revenues, e.id ≠ i) →
      (monthDataAt (delete_item σ y m ListKind.revenues i) y m).revenues =
        (monthDataAt σ y m).revenues) ∧
    ((∀ e ∈ (monthDataAt σ y m).expenses, e.id ≠ i) →
      (monthDataAt (delete_item σ y m ListKind.expenses i) y m).expenses =
        (monthDataAt σ y m).expenses) ∧
    ((monthDataAt σ y m).revenues = [] →
      (monthDataAt (delete_item σ y m ListKind.revenues i) y m).revenues = []) ∧
    ((monthDataAt σ y m).expenses = [] →
      (monthDataAt (delete_item σ y m ListKind.expenses i) y m).expenses = []) := by
  have hr : (monthDataAt (delete_item σ y m ListKind.revenues i) y m).revenues =
      (monthDataAt σ y m).revenues.filter (fun e => e.id ≠ i) := by
    rw [delete_item_monthDataAt_rev]
  have he : (monthDataAt (delete_item σ y m ListKind.expenses i) y m).expenses =
      (monthDataAt σ y m).expenses.filter (fun e => e.id ≠ i) := by
    rw [delete_item_monthDataAt_exp]
  refine ⟨hr, he, ?_, ?_, ?_, ?_⟩
  · intro hnone
    rw [hr, List.filter_eq_self.mpr]
    intro e he
    simpa using hnone e he
  · intro hnone
    rw [he, List.filter_eq_self.mpr]
    intro e hee
    simpa using hnone e hee
  · intro hempty
    rw [hr, hempty]
    rfl
  · intro hempty
    rw [he, hempty]
    rfl

/-- Closed instance of `delete_item_filter_spec`: deleting id 7 from the
empty store's (empty) revenues list is a no-op. -/
theorem delete_item_filter_spec_witness :
    (monthDataAt (delete_item [] 2025 6 ListKind.revenues 7) 2025 6).revenues
      = [] := by
  exact (delete_item_filter_spec [] 2025 6 7).2.2.2.2.1 rfl

/-- C3 counterexample: on a reachable month whose revenues carry the ids
`[1, 3, 3]`, `delete_item` with id 3 removes BOTH matching entries (leaving
ids `[1]`), whereas removing only the first matching entry would leave
`[1, 3]` — so `delete_item` does not remove "exactly the first" match. -/
theorem delete_item_not_first_only :
    (monthDataAt dupStore 2025 6).revenues.map (fun e => e.id) = [1, 3, 3] ∧
    (monthDataAt (delete_item dupStore 2025 6 ListKind.revenues 3)
      2025 6).revenues.map (fun e => e.id) = [1] ∧
    (removeFirstById (monthDataAt dupStore 2025 6).revenues 3).map
      (fun e => e.id) = [1, 3] ∧
    (monthDataAt (delete_item dupStore 2025 6 ListKind.revenues 3)
        2025 6).revenues ≠
      removeFirstById (monthDataAt dupStore 2025 6).revenues 3 := by
  have h2 : (monthDataAt (delete_item dupStore 2025 6 ListKind.revenues 3)
      2025 6).revenues.map (fun e => e.id) = [1] := by decide
  have h3 : (removeFirstById (monthDataAt dupStore 2025 6).revenues 3).map
      (fun e => e.id) = [1, 3] := by decide
  refine ⟨by decide, h2, h3, fun hEq => ?_⟩
  rw [hEq, h3] at h2
  exact absurd h2 (by decide)

/-! ### Month keys of one year are pairwise distinct -/

theorem toString_lt12_inj : ∀ a < 12, ∀ b < 12, a ≠ b →
    toString a ≠ toString b := by decide

theorem get_month_key_inj (y : Nat) {a b : Nat} (ha : a < 12) (hb : b < 12)
    (hne : a ≠ b) : get_month_key y a ≠ get_month_key y b := by
  intro hEq
  have h0 := congrArg String.data hEq
  simp only [get_month_key] at h0
  have h0' : (toString y).data ++ ('-' :: (toString a).data) =
      (toString y).data ++ ('-' :: (toString b).data) := by
    simpa using h0
  have h1 := List.append_cancel_left h0'
  have h2 : (toString a).data = (toString b).data := by
    injection h1
  have h3 : toString a = toString b := by
    cases hta : toString a with
    | mk l => cases htb : toString b with
      | mk l2 =>
          rw [hta, htb] at h2
          simp at h2
          rw [h2]
  exact toString_lt12_inj a ha b hb hne h3

theorem range12_pairwise_keys (y : Nat) :
    (List.range 12).Pairwise (fun a b => get_month_key y a ≠ get_month_key y b) := by
  have hp : (List.range 12).Pairwise (· < ·) := List.pairwise_lt_range 12
  refine hp.imp_of_mem ?_
  intro a b hma hmb hab
  exact get_month_key_inj y (List.mem_range.mp hma) (List.mem_range.mp hmb)
    (Nat.ne_of_lt hab)

/-! ### The store effect of the annual loop: lazy month materialization -/

theorem matStep_get_self (σ : Store) (y m : Nat) :
    storeGet (matStep σ y m) (get_month_key y m) = some (monthDataAt σ y m) :=
  get_month_data_snd_get_self σ y m

theorem matStep_get_ne (σ : Store) (y m : Nat) (k : String)
    (h : k ≠ get_month_key y m) : storeGet (matStep σ y m) k = storeGet σ k :=
  get_month_data_snd_get_ne σ y m k h

theorem monthDataAt_matStep_ne (σ : Store) (y j m : Nat)
    (h : get_month_key y j ≠ get_month_key y m) :
    monthDataAt (matStep σ y m) y j = monthDataAt σ y j := by
  unfold monthDataAt
  rw [matStep_get_ne σ y m _ h]

theorem matFold_get_notmem (y : Nat) (ms : List Nat) :
    ∀ σ (k : String), (∀ j ∈ ms, k ≠ get_month_key y j) →
      storeGet (matFold σ y ms) k = storeGet σ k := by
  induction ms with
  | nil => intro σ k _; rfl
  | cons m rest ih =>
      intro σ k hk
      rw [matFold]
      rw [ih (matStep σ y m) k (fun j hj => hk j (List.mem_cons_of_mem m hj))]
      exact matStep_get_ne σ y m k (hk m (List.mem_cons_self m rest))

theorem matFold_get_mem (y : Nat) (ms : List Nat) :
    ∀ σ, ms.Pairwise (fun a b => get_month_key y a ≠ get_month_key y b) →
      ∀ m ∈ ms, storeGet (matFold σ y ms) (get_month_key y m) =
        some (monthDataAt σ y m) := by
  induction ms with
  | nil => intro σ _ m hm; cases hm
  | cons j rest ih =>
      intro σ hpw m hm
      have hj := (List.pairwise_cons.mp hpw).1
      have hrest := (List.pairwise_cons.mp hpw).2
      rw [matFold]
      rcases List.mem_cons.mp hm with hmj | hmr
      · subst hmj
        rw [matFold_get_notmem y rest (matStep σ y m) (get_month_key y m)
          (fun j' hj' => hj j' hj')]
        exact matStep_get_self σ y m
      · rw [ih (matStep σ y j) hrest m hmr,
          monthDataAt_matStep_ne σ y m j (Ne.symm (hj m hmr))]

/-! ### Category sums and the per-category dict -/

theorem bumpCategory_lookup (cat : String) (amt : ℚ) :
    ∀ (l l' : List (String × ℚ)), bumpCategory l cat amt = some l' → ∀ c,
      lookupQ l' c = if c = cat then (lookupQ l c).map (fun v => v + amt)
        else lookupQ l c := by
  intro l
  induction l with
  | nil => intro l' h; exact absurd h (by simp [bumpCategory])
  | cons p rest ih =>
      obtain ⟨c₀, v₀⟩ := p
      intro l' h c
      rw [bumpCategory] at h
      by_cases h₀ : c₀ = cat
      · rw [if_pos h₀] at h
        injection h with h
        subst h
        subst h₀
        by_cases hc : c = c₀
        · subst hc
          simp [lookupQ, List.find?]
        · simp [lookupQ, List.find?, hc, Ne.symm hc]
      · rw [if_neg h₀] at h
        cases hb : bumpCategory rest cat amt with
        | none => rw [hb] at h; exact absurd h (by simp)
        | some rest' =>
            rw [hb] at h
            have h' : (c₀, v₀) :: rest' = l' := by simpa using h
            subst h'
            have ihh := ih rest' hb c
            by_cases hc : c = c₀
            · subst hc
              have hccat : ¬ c = cat := fun hh => h₀ (by rw [← hh])
              rw [if_neg hccat]
              simp [lookupQ, List.find?]
            · have hhead : ∀ (xs : List (String × ℚ)),
                  lookupQ ((c₀, v₀) :: xs) c = lookupQ xs c := by
                intro xs
                simp [lookupQ, List.find?, Ne.symm hc]
              rw [hhead rest', hhead rest]
              exact ihh

theorem catSum_cons (e : Entry) (rest : List Entry) (c : String) :
    catSum (e :: rest) c =
      if e.category = c then e.amount + catSum rest c else catSum rest c := by
  by_cases h : e.category = c
  · simp [catSum, List.filter, h]
  · simp [catSum, List.filter, h]

theorem bumpAll_lookup (es : List Entry) :
    ∀ acc acc', bumpAll acc es = some acc' → ∀ c,
      lookupQ acc' c = (lookupQ acc c).map (fun v => v + catSum es c) := by
  induction es with
  | nil =>
      intro acc acc' h c
      rw [bumpAll] at h
      injection h with h
      subst h
      simp [catSum]
  | cons e rest ih =>
      intro acc acc' h c
      rw [bumpAll] at h
      cases hb : bumpCategory acc e.category e.amount with
      | none => rw [hb] at h; exact absurd h (by simp)
      | some acc₁ =>
          rw [hb] at h
          have h1 := bumpCategory_lookup e.category e.amount acc acc₁ hb c
          have h2 := ih acc₁ acc' h c
          rw [h2, h1, catSum_cons]
          by_cases hc : c = e.category
          · rw [if_pos hc, if_pos (by rw [hc] : e.category = c)]
            cases lookupQ acc c <;> simp [add_assoc]
          · rw [if_neg hc, if_neg (fun hh => hc hh.symm)]

theorem lookupQ_init (cats : List String) (c : String) (h : c ∈ cats) :
    lookupQ (cats.map (fun c₀ => (c₀, (0:ℚ)))) c = some 0 := by
  induction cats with
  | nil => cases h
  | cons c₀ rest ih =>
      by_cases hc : c₀ = c
      · simp [lookupQ, List.find?, hc]
      · rcases List.mem_cons.mp h with h1 | h2
        · exact absurd h1.symm hc
        · have := ih h2
          simp only [lookupQ, List.map, List.find?] at this ⊢
          simp [hc]
          simpa [lookupQ] using this

/-! ### One iteration and the whole loop of the annual report -/

theorem calculate_totals_after_gmd (σ : Store) (y m : Nat) :
    calculate_totals (get_month_data σ y m).2 y m =
      ({ revenues := total_amount (monthDataAt σ y m).revenues,
         expenses := total_amount (monthDataAt σ y m).expenses,
         net_income := total_amount (monthDataAt σ y m).revenues -
           total_amount (monthDataAt σ y m).expenses },
       (get_month_data σ y m).2) := by
  simp only [calculate_totals]
  rw [get_month_data_idem]

theorem annualStep_char (y : Nat) (ad : AnnualData) (σ : Store) (m : Nat)
    (q : AnnualData × Store) (h : annualStep y ad σ m = some q) :
    ∃ rc ec,
      bumpAll ad.revenue_categories (monthDataAt σ y m).revenues = some rc ∧
      bumpAll ad.expense_categories (monthDataAt σ y m).expenses = some ec ∧
      q = ({ monthly_totals := ad.monthly_totals ++ [monthRow σ y m],
             revenue_categories := rc,
             expense_categories := ec,
             grand_totals :=
               { revenues := ad.grand_totals.revenues +
                   total_amount (monthDataAt σ y m).revenues,
                 expenses := ad.grand_totals.expenses +
                   total_amount (monthDataAt σ y m).expenses,
                 net_income := ad.grand_totals.net_income } },
           matStep σ y m) := by
  simp only [annualStep, calculate_totals_after_gmd, get_month_data_fst] at h
  cases hbr : bumpAll ad.revenue_categories (monthDataAt σ y m).revenues with
  | none => rw [hbr] at h; exact absurd h (by simp)
  | some rc =>
      rw [hbr] at h
      cases hbe : bumpAll ad.expense_categories (monthDataAt σ y m).expenses with
      | none => rw [hbe] at h; exact absurd h (by simp)
      | some ec =>
          rw [hbe] at h
          refine ⟨rc, ec, rfl, rfl, ?_⟩
          injection h with h
          rw [← h]
          rfl

theorem annualLoop_spec (y : Nat) (ms : List Nat) :
    ∀ σ ad p, annualLoop y ms ad σ = some p →
      ms.Pairwise (fun a b => get_month_key y a ≠ get_month_key y b) →
      p.2 = matFold σ y ms ∧
      p.1.monthly_totals = ad.monthly_totals ++ ms.map (fun m => monthRow σ y m) ∧
      p.1.grand_totals.revenues = ad.grand_totals.revenues +
        (ms.map (fun m => total_amount (monthDataAt σ y m).revenues)).sum ∧
      p.1.grand_totals.expenses = ad.grand_totals.expenses +
        (ms.map (fun m => total_amount (monthDataAt σ y m).expenses)).sum ∧
      p.1.grand_totals.net_income = ad.grand_totals.net_income ∧
      (∀ c, lookupQ p.1.revenue_categories c =
        (lookupQ ad.revenue_categories c).map
          (fun v => v + (ms.map (fun m => catSum (monthDataAt σ y m).revenues c)).sum)) ∧
      (∀ c, lookupQ p.1.expense_categories c =
        (lookupQ ad.expense_categories c).map
          (fun v => v + (ms.map (fun m => catSum (monthDataAt σ y m).expenses c)).sum)) := by
  induction ms with
  | nil =>
      intro σ ad p h _
      rw [annualLoop] at h
      injection h with h
      subst h
      refine ⟨rfl, by simp, by simp, by simp, rfl, fun c => ?_, fun c => ?_⟩ <;>
        cases lookupQ ad.revenue_categories c <;>
        cases lookupQ ad.expense_categories c <;> simp
  | cons m rest ih =>
      intro σ ad p h hpw
      have hj := (List.pairwise_cons.mp hpw).1
      have hrest := (List.pairwise_cons.mp hpw).2
      rw [annualLoop] at h
      cases hs : annualStep y ad σ m with
      | none => rw [hs] at h; exact absurd h (by simp)
      | some q =>
          rw [hs] at h
          obtain ⟨rc, ec, hbr, hbe, hq⟩ := annualStep_char y ad σ m q hs
          subst hq
          have ihh := ih (matStep σ y m) _ p h hrest
          have hMD : ∀ j ∈ rest, monthDataAt (matStep σ y m) y j = monthDataAt σ y j :=
            fun j hjr => monthDataAt_matStep_ne σ y j m (Ne.symm (hj j hjr))
          have hrow : rest.map (fun j => monthRow (matStep σ y m) y j) =
              rest.map (fun j => monthRow σ y j) := by
            refine List.map_congr_left ?_
            intro j hjr
            simp [monthRow, hMD j hjr]
          have hrev : rest.map (fun j => total_amount (monthDataAt (matStep σ y m) y j).revenues) =
              rest.map (fun j => total_amount (monthDataAt σ y j).revenues) := by
            refine List.map_congr_left ?_
            intro j hjr
            rw [hMD j hjr]
          have hexp : rest.map (fun j => total_amount (monthDataAt (matStep σ y m) y j).expenses) =
              rest.map (fun j => total_amount (monthDataAt σ y j).expenses) := by
            refine List.map_congr_left ?_
            intro j hjr
            rw [hMD j hjr]
          have hcatr : ∀ c, rest.map (fun j => catSum (monthDataAt (matStep σ y m) y j).revenues c) =
              rest.map (fun j => catSum (monthDataAt σ y j).revenues c) := by
            intro c
            refine List.map_congr_left ?_
            intro j hjr
            rw [hMD j hjr]
          have hcate : ∀ c, rest.map (fun j => catSum (monthDataAt (matStep σ y m) y j).expenses c) =
              rest.map (fun j => catSum (monthDataAt σ y j).expenses c) := by
            intro c
            refine List.map_congr_left ?_
            intro j hjr
            rw [hMD j hjr]
          obtain ⟨h1, h2, h3, h4, h5, h6, h7⟩ := ihh
          refine ⟨?_, ?_, ?_, ?_, ?_, ?_, ?_⟩
          · rw [h1, matFold]
          · rw [h2, hrow]
            simp [List.append_assoc]
          · rw [h3, hrev]
            simp [add_assoc]
          · rw [h4, hexp]
            simp [add_assoc]
          · rw [h5]
          · intro c
            rw [h6 c, hcatr c]
            have hb := bumpAll_lookup (monthDataAt σ y m).revenues
              ad.revenue_categories rc hbr c
            cases hL : lookupQ ad.revenue_categories c <;>
              rw [hL] at hb <;> simp [hb, hL, add_assoc]
          · intro c
            rw [h7 c, hcate c]
            have hb := bumpAll_lookup (monthDataAt σ y m).expenses
              ad.expense_categories ec hbe c
            cases hL : lookupQ ad.expense_categories c <;>
              rw [hL] at hb <;> simp [hb, hL, add_assoc]

/-! ### C5, C6, C7: the annual report -/

theorem sum_map_sub {α : Type} (l : List α) (f g : α → ℚ) :
    (l.map (fun x => f x - g x)).sum = (l.map f).sum - (l.map g).sum := by
  induction l with
  | nil => simp
  | cons x xs ih =>
      simp only [List.map_cons, List.sum_cons, ih]
      ring

theorem generate_annual_report_char (σ : Store) (y : Nat) (ad : AnnualData)
    (σ' : Store) (h : generate_annual_report σ y = some (ad, σ')) :
    ∃ p, annualLoop y (List.range 12) initialAnnual σ = some p ∧ σ' = p.2 ∧
      ad = { p.1 with grand_totals := { p.1.grand_totals with net_income :=
        p.1.grand_totals.revenues - p.1.grand_totals.expenses } } := by
  unfold generate_annual_report at h
  cases hl : annualLoop y (List.range 12) initialAnnual σ with
  | none => rw [hl] at h; exact absurd h (by simp)
  | some p =>
      rw [hl] at h
      have h2 : (({ p.1 with grand_totals := { p.1.grand_totals with
          net_income := p.1.grand_totals.revenues - p.1.grand_totals.expenses }
          } : AnnualData), p.2) = (ad, σ') := by
        injection h
      rw [Prod.mk.injEq] at h2
      exact ⟨p, rfl, h2.2.symm, h2.1.symm⟩

/-- C5.  For every year, a successful `generate_annual_report` returns grand
totals with `net_income = revenues - expenses`, the sum of the twelve
monthly `net_income` values equals the grand net exactly (amounts are exact
rationals, so there is no rounding drift), and the fold itself leaves the
grand net at its initial 0 — the net is computed once, after the fold, not
accumulated per month. -/
theorem annual_report_net_identity (σ : Store) (y : Nat) (ad : AnnualData)
    (σ' : Store) (h : generate_annual_report σ y = some (ad, σ')) :
    ad.grand_totals.net_income =
      ad.grand_totals.revenues - ad.grand_totals.expenses ∧
    (ad.monthly_totals.map (fun r => r.net_income)).sum =
      ad.grand_totals.net_income ∧
    (∀ p, annualLoop y (List.range 12) initialAnnual σ = some p →
      p.1.grand_totals.net_income = 0) := by
  obtain ⟨p, hl, hσ, had⟩ := generate_annual_report_char σ y ad σ' h
  obtain ⟨h1, h2, h3, h4, h5, h6, h7⟩ := annualLoop_spec y (List.range 12) σ
    initialAnnual p hl (range12_pairwise_keys y)
  subst had
  refine ⟨rfl, ?_, ?_⟩
  · have hmt : p.1.monthly_totals =
        (List.range 12).map (fun m => monthRow σ y m) := by
      rw [h2]
      simp [initialAnnual]
    have hgr : p.1.grand_totals.revenues =
        ((List.range 12).map (fun m =>
          total_amount (monthDataAt σ y m).revenues)).sum := by
      rw [h3]
      simp [initialAnnual]
    have hge : p.1.grand_totals.expenses =
        ((List.range 12).map (fun m =>
          total_amount (monthDataAt σ y m).expenses)).sum := by
      rw [h4]
      simp [initialAnnual]
    show (p.1.monthly_totals.map (fun r => r.net_income)).sum =
      p.1.grand_totals.revenues - p.1.grand_totals.expenses
    rw [hmt, hgr, hge, List.map_map]
    have hcomp : ((fun r => r.net_income) ∘ (fun m => monthRow σ y m)) =
        fun m => total_amount (monthDataAt σ y m).revenues -
          total_amount (monthDataAt σ y m).expenses := rfl
    rw [hcomp, sum_map_sub]
  · intro p' hp'
    rw [hl] at hp'
    injection hp' with hp'
    rw [← hp']
    simpa [initialAnnual] using h5

/-- Closed instance of `annual_report_net_identity` on a one-entry store:
its report hypothesis discharged by computation. -/
theorem annual_report_net_identity_witness :
    (match generate_annual_report annualWitnessStore 2025 with
     | none => False
     | some q => q.1.grand_totals.net_income =
         q.1.grand_totals.revenues - q.1.grand_totals.expenses) := by
  have hs : (generate_annual_report annualWitnessStore 2025).isSome = true := by
    decide
  cases hEq : generate_annual_report annualWitnessStore 2025 with
  | none => rw [hEq] at hs; exact absurd hs (by simp)
  | some q =>
      exact (annual_report_net_identity annualWitnessStore 2025 q.1 q.2
        (by rw [hEq])).1

/-- C6.  For every year and every category of the fixed enumerations, a
successful `generate_annual_report` reports for that category exactly the
sum of the `amount` fields of that category's entries over the twelve
months, and a category with no entries is reported with value exactly 0. -/
theorem annual_report_category_sums (σ : Store) (y : Nat) (ad : AnnualData)
    (σ' : Store) (h : generate_annual_report σ y = some (ad, σ'))
    (cat : String) :
    (cat ∈ revenue_categories →
      lookupQ ad.revenue_categories cat =
        some (((List.range 12).map (fun m =>
          catSum (monthDataAt σ y m).revenues cat)).sum)) ∧
    (cat ∈ expense_categories →
      lookupQ ad.expense_categories cat =
        some (((List.range 12).map (fun m =>
          catSum (monthDataAt σ y m).expenses cat)).sum)) ∧
    (cat ∈ revenue_categories →
      (∀ m, m < 12 → catSum (monthDataAt σ y m).revenues cat = 0) →
      lookupQ ad.revenue_categories cat = some 0) ∧
    (cat ∈ expense_categories →
      (∀ m, m < 12 → catSum (monthDataAt σ y m).expenses cat = 0) →
      lookupQ ad.expense_categories cat = some 0) := by
  obtain ⟨p, hl, hσ, had⟩ := generate_annual_report_char σ y ad σ' h
  obtain ⟨h1, h2, h3, h4, h5, h6, h7⟩ := annualLoop_spec y (List.range 12) σ
    initialAnnual p hl (range12_pairwise_keys y)
  subst had
  have hrc : cat ∈ revenue_categories →
      lookupQ p.1.revenue_categories cat =
        some (((List.range 12).map (fun m =>
          catSum (monthDataAt σ y m).revenues cat)).sum) := by
    intro hmem
    have hinit : lookupQ initialAnnual.revenue_categories cat = some 0 := by
      show lookupQ (revenue_categories.map (fun c => (c, (0:ℚ)))) cat = some 0
      exact lookupQ_init revenue_categories cat hmem
    rw [h6 cat, hinit]
    simp
  have hec : cat ∈ expense_categories →
      lookupQ p.1.expense_categories cat =
        some (((List.range 12).map (fun m =>
          catSum (monthDataAt σ y m).expenses cat)).sum) := by
    intro hmem
    have hinit : lookupQ initialAnnual.expense_categories cat = some 0 := by
      show lookupQ (expense_categories.map (fun c => (c, (0:ℚ)))) cat = some 0
      exact lookupQ_init expense_categories cat hmem
    rw [h7 cat, hinit]
    simp
  refine ⟨hrc, hec, ?_, ?_⟩
  · intro hmem hzero
    rw [show lookupQ ({ p.1 with grand_totals := { p.1.grand_totals with
        net_income := p.1.grand_totals.revenues - p.1.grand_totals.expenses }
        } : AnnualData).revenue_categories cat =
      lookupQ p.1.revenue_categories cat from rfl]
    rw [hrc hmem]
    have hz : ((List.range 12).map (fun m =>
        catSum (monthDataAt σ y m).revenues cat)).sum = 0 := by
      apply List.sum_eq_zero
      intro x hx
      obtain ⟨m, hm, hxe⟩ := List.mem_map.mp hx
      rw [← hxe]
      exact hzero m (List.mem_range.mp hm)
    rw [hz]
  · intro hmem hzero
    rw [show lookupQ ({ p.1 with grand_totals := { p.1.grand_totals with
        net_income := p.1.grand_totals.revenues - p.1.grand_totals.expenses }
        } : AnnualData).expense_categories cat =
      lookupQ p.1.expense_categories cat from rfl]
    rw [hec hmem]
    have hz : ((List.range 12).map (fun m =>
        catSum (monthDataAt σ y m).expenses cat)).sum = 0 := by
      apply List.sum_eq_zero
      intro x hx
      obtain ⟨m, hm, hxe⟩ := List.mem_map.mp hx
      rw [← hxe]
      exact hzero m (List.mem_range.mp hm)
    rw [hz]

/-- Closed instance of `annual_report_category_sums` at the category
"Frais de garde" on a one-entry store. -/
theorem annual_report_category_sums_witness :
    (match generate_annual_report annualWitnessStore 2025 with
     | none => False
     | some q => lookupQ q.1.revenue_categories "Frais de garde" =
         some (((List.range 12).map (fun m =>
           catSum (monthDataAt annualWitnessStore 2025 m).revenues
             "Frais de garde")).sum)) := by
  have hs : (generate_annual_report annualWitnessStore 2025).isSome = true := by
    decide
  cases hEq : generate_annual_report annualWitnessStore 2025 with
  | none => rw [hEq] at hs; exact absurd hs (by simp)
  | some q =>
      exact (annual_report_category_sums annualWitnessStore 2025 q.1 q.2
        (by rw [hEq]) "Frais de garde").1 (by decide)

/-- C7.  A successful `generate_annual_report` mutates the store: afterwards
every key `"{year}-{m}"` for `m < 12` is present — bound to the value it had
before when it existed, and to the empty month otherwise — and every other
key (other years included) reads exactly as before the call. -/
theorem annual_report_store_materialization (σ : Store) (y : Nat)
    (ad : AnnualData) (σ' : Store)
    (h : generate_annual_report σ y = some (ad, σ')) :
    (∀ m, m < 12 → storeGet σ' (get_month_key y m) =
      some ((storeGet σ (get_month_key y m)).getD emptyMonth)) ∧
    (∀ k : String, (∀ m, m < 12 → k ≠ get_month_key y m) →
      storeGet σ' k = storeGet σ k) := by
  obtain ⟨p, hl, hσ, had⟩ := generate_annual_report_char σ y ad σ' h
  have hspec := annualLoop_spec y (List.range 12) σ initialAnnual p hl
    (range12_pairwise_keys y)
  have hstore := hspec.1
  subst hσ
  rw [hstore]
  constructor
  · intro m hm
    exact matFold_get_mem y (List.range 12) σ (range12_pairwise_keys y) m
      (List.mem_range.mpr hm)
  · intro k hk
    exact matFold_get_notmem y (List.range 12) σ k
      (fun j hj => hk j (List.mem_range.mp hj))

/-- Closed instance of `annual_report_store_materialization`: month 0 of
2025 is materialized to the empty month and a key of another year is
untouched. -/
theorem annual_report_store_materialization_witness :
    (match generate_annual_report annualWitnessStore 2025 with
     | none => False
     | some q => storeGet q.2 (get_month_key 2025 0) =
         some ((storeGet annualWitnessStore (get_month_key 2025 0)).getD
           emptyMonth) ∧
         storeGet q.2 "2024-6" = storeGet annualWitnessStore "2024-6") := by
  have hs : (generate_annual_report annualWitnessStore 2025).isSome = true := by
    decide
  cases hEq : generate_annual_report annualWitnessStore 2025 with
  | none => rw [hEq] at hs; exact absurd hs (by simp)
  | some q =>
      have hth := annual_report_store_materialization annualWitnessStore 2025
        q.1 q.2 (by rw [hEq])
      exact ⟨hth.1 0 (by decide), hth.2 "2024-6" (by decide)⟩

/-! ### C8: save / load round-trip -/

theorem jsonToEntry_entryToJson (e : Entry) :
    jsonToEntry (entryToJson e) = some e := rfl

theorem jsonToEntryList_roundtrip (es : List Entry) :
    jsonToEntryList (es.map entryToJson) = some es := by
  induction es with
  | nil => rfl
  | cons e rest ih => simp [jsonToEntryList, jsonToEntry_entryToJson, ih]

theorem jsonToMonth_monthToJson (md : MonthData) :
    jsonToMonth (monthToJson md) = some md := by
  simp [monthToJson, jsonToMonth, jsonToEntries, jsonToEntryList_roundtrip]

/-- C8.  For every ledger store — any number of months, each with any number
of entries — serializing with `save_data` and parsing back with `load_data`
reproduces the identical store. -/
theorem save_load_roundtrip (σ : Store) : load_data (save_data σ) = some σ := by
  show load_fields (σ.map (fun p => (p.1, monthToJson p.2))) = some σ
  induction σ with
  | nil => rfl
  | cons p rest ih =>
      simp [load_fields, jsonToMonth_monthToJson, ih]

/-! ### C9: the persisted file name is fixed, not identifier-derived -/

/-- C9 counterexample: for the concrete identifier "Garderie ABC" the
sanitization described by the spec yields "garderie_abc", but the file name
the code persists to is the constant "garderie_budget.json" — it is not the
sanitized identifier (with or without a ".json" suffix), and `__init__`
takes no identifier at all. -/
theorem storage_key_not_sanitized :
    sanitizeIdentifier "Garderie ABC" = "garderie_abc" ∧
    data_file = "garderie_budget.json" ∧
    data_file ≠ sanitizeIdentifier "Garderie ABC" ∧
    data_file ≠ sanitizeIdentifier "Garderie ABC" ++ ".json" := by
  refine ⟨by decide, rfl, by decide, by decide⟩

/-- C9 (amended).  The persistence file name is the fixed constant
`garderie_budget.json`, identical for every raw user identifier; no
sanitized namespace is derived anywhere in `src/main.py`. -/
theorem data_file_constant : data_file = "garderie_budget.json" := rfl

end Garderie
